import Mathlib

/-!
Verification of the core logic of a delta-neutral funding bot
(lending-protocol collateral + perpetual hedge).

Shallow embedding of:
- src/utils/calculations.py   (PositionCalculator)
- src/utils/monitoring.py     (PositionMonitor.process_position_data)
- src/strategies/delta_neutral_executor.py (DeltaNeutralExecutor)

Numeric values (Python floats / Decimals) are modelled as exact rationals;
Python `int(...)` truncation is modelled by `pyInt`; the possibly-infinite
`buffer_percentage` (Python `float('inf')`) is modelled by `ExtQ`.
-/

/-- Python `int(x)` truncates toward zero; so does `Int.tdiv` on `num/den`
of a reduced rational. -/
def pyInt (q : ℚ) : ℤ := q.num.tdiv (q.den : ℤ)

/-- Python `round(x, d)`: round to `d` decimal places. Tie-breaking
(Python rounds half to even, this model rounds half up) is irrelevant to
every statement below. -/
def py_round (q : ℚ) (d : ℕ) : ℚ := ((round (q * 10 ^ d) : ℤ) : ℚ) / 10 ^ d

/-- An extended rational: either finite or `+∞` (Python `float('inf')`). -/
inductive ExtQ where
  | fin (q : ℚ)
  | inf
deriving DecidableEq

/-- The Python comparison `e < w` where `e` may be `float('inf')` and `w`
is finite: `inf < w` is `False`. -/
def ExtQ.blt : ExtQ → ℚ → Bool
  | .fin q, w => decide (q < w)
  | .inf, _ => false

/- ## src/utils/calculations.py -/

/-- `PositionCalculator.calculate_apy`: if `compound`, computes
`annual_rate = rate * payments_per_year` then
`(1 + annual_rate/payments_per_year)^payments_per_year - 1`; otherwise
`rate * payments_per_year`; in both branches the result is multiplied by
100 ("Convert to percentage"). -/
def calculate_apy (rate : ℚ) (payments_per_year : ℕ) (compound : Bool) : ℚ :=
  let annual_yield :=
    if compound then
      let annual_rate := rate * payments_per_year
      (1 + annual_rate / (payments_per_year : ℚ)) ^ payments_per_year - 1
    else
      rate * payments_per_year
  annual_yield * 100

/-- `PositionCalculator.calculate_maintenance_margin`:
`(1 / max_leverage) * 0.5`. (The source can only be called with nonzero
leverage; rational division by zero yields 0 in this model.) -/
def calculate_maintenance_margin (max_leverage : ℤ) : ℚ :=
  (1 / (max_leverage : ℚ)) * 0.5

/-- `PositionCalculator.calculate_liquidation_threshold`. -/
def calculate_liquidation_threshold (total_open_position_usd : ℚ) (max_leverage : ℤ) : ℚ :=
  calculate_maintenance_margin max_leverage * total_open_position_usd

/-- Default of the `warning_threshold_pct` parameter of
`is_near_liquidation` in the source. -/
def warning_threshold_pct_default : ℚ := 10

/-- The dict returned by `PositionCalculator.is_near_liquidation`. -/
structure LiquidationRisk where
  is_near : Bool
  maintenance_margin : ℚ
  liquidation_threshold : ℚ
  margin_buffer : ℚ
  buffer_percentage : ExtQ
deriving DecidableEq

/-- `PositionCalculator.is_near_liquidation`. -/
def is_near_liquidation (account_value total_open_position_usd : ℚ)
    (max_leverage : ℤ) (warning_threshold_pct : ℚ) : LiquidationRisk :=
  let maintenance_margin := calculate_maintenance_margin max_leverage
  let liquidation_threshold :=
    calculate_liquidation_threshold total_open_position_usd max_leverage
  let margin_buffer := account_value - liquidation_threshold
  let buffer_percentage :=
    if 0 < liquidation_threshold then
      ExtQ.fin (margin_buffer / liquidation_threshold * 100)
    else ExtQ.inf
  { is_near := ExtQ.blt buffer_percentage warning_threshold_pct
    maintenance_margin := maintenance_margin
    liquidation_threshold := liquidation_threshold
    margin_buffer := margin_buffer
    buffer_percentage := buffer_percentage }

/- ## Theorems about src/utils/calculations.py -/

/-- C1 (counterexample): the spec claims
`calculate_apy(r, n, compound=False) == r*n`; the source returns
`r*n*100`. At `r = 1, n = 2` the source yields 200, not 2. -/
theorem calculate_apy_simple_not_rate_times_n :
    calculate_apy 1 2 false = 200 ∧ calculate_apy 1 2 false ≠ 1 * 2 := by
  norm_num [calculate_apy]

/-- C1 (amended): with `compound = false`, `calculate_apy` returns the
simple annualization scaled to a percentage: `r * n * 100`. -/
theorem calculate_apy_simple_eq_rate_times_n_times_100 (r : ℚ) (n : ℕ) :
    calculate_apy r n false = r * n * 100 := by
  simp [calculate_apy]

/-- C7: `is_near_liquidation` satisfies the spec equations:
`margin_buffer = account_value - liquidation_threshold`;
`buffer_percentage = (margin_buffer/threshold)*100` when the threshold is
positive and `+∞` otherwise; `is_near` holds iff
`buffer_percentage < warning_threshold_pct` (whose source default is 10). -/
theorem is_near_liquidation_spec (account_value total_open_position_usd : ℚ)
    (max_leverage : ℤ) (warn : ℚ) :
    (is_near_liquidation account_value total_open_position_usd max_leverage warn).margin_buffer
      = account_value - calculate_liquidation_threshold total_open_position_usd max_leverage
    ∧ (is_near_liquidation account_value total_open_position_usd max_leverage warn).buffer_percentage
      = (if 0 < calculate_liquidation_threshold total_open_position_usd max_leverage then
          ExtQ.fin
            ((is_near_liquidation account_value total_open_position_usd max_leverage warn).margin_buffer
              / calculate_liquidation_threshold total_open_position_usd max_leverage * 100)
        else ExtQ.inf)
    ∧ ((is_near_liquidation account_value total_open_position_usd max_leverage warn).is_near = true
      ↔ ExtQ.blt
          (is_near_liquidation account_value total_open_position_usd max_leverage warn).buffer_percentage
          warn = true)
    ∧ warning_threshold_pct_default = 10 :=
  ⟨rfl, rfl, Iff.rfl, rfl⟩

/- ## src/utils/monitoring.py -/

/-- The `cumFunding` dict of a venue-reported position. -/
structure CumFunding where
  allTime : ℚ
  sinceOpen : ℚ
  sinceChange : ℚ
deriving DecidableEq

/-- A venue-reported position (the `position` dict inside an
`assetPositions` entry of the clearinghouse state). `liquidationPx` is
optional (`None` maps to 0 in the source); `leverage_value` is
`leverage["value"]`. -/
structure RawPosition where
  coin : String
  szi : ℚ
  positionValue : ℚ
  entryPx : ℚ
  maxLeverage : ℤ
  liquidationPx : Option ℚ
  leverage_value : ℚ
  unrealizedPnl : ℚ
  cumFunding : CumFunding
deriving DecidableEq

/-- An `assetPositions` entry: `position.get("position")` may be absent. -/
structure AssetPosition where
  position : Option RawPosition
deriving DecidableEq

/-- The `marginSummary` dict. -/
structure MarginSummary where
  accountValue : ℚ
deriving DecidableEq

/-- The `clearinghouseState` dict of a `webData2` message. -/
structure ClearinghouseState where
  assetPositions : List AssetPosition
  marginSummary : MarginSummary
deriving DecidableEq

/-- A `webData2` account-snapshot message; `clearinghouseState` may be
missing. -/
structure WebData2 where
  clearinghouseState : Option ClearinghouseState
deriving DecidableEq

/-- A cached `activeAssetCtx` entry: `{funding, markPx}`. -/
structure AssetCtx where
  funding : ℚ
  markPx : ℚ
deriving DecidableEq

/-- The `funding_info` dict stored per processed position. -/
structure FundingInfo where
  allTime : ℚ
  sinceOpen : ℚ
  sinceChange : ℚ
  currentRate : ℚ
  projectedApy : ℚ
deriving DecidableEq

/-- The `PositionInfo` dataclass of src/utils/monitoring.py. -/
structure PositionInfo where
  coin : String
  position_usd : ℚ
  notional_usd : ℚ
  max_leverage : ℤ
  account_value : ℚ
  liquidation_price : ℚ
  entry_price : ℚ
  size : ℚ
  leverage : ℤ
  unrealized_pnl : ℚ
  funding : FundingInfo
  risk_metrics : LiquidationRisk
  funding_apy : ℚ
  current_funding_rate : ℚ
  current_mark_price : ℚ
deriving DecidableEq

/-- The mutable fields of `PositionMonitor` relevant to
`process_position_data`: `latest_state`, `asset_contexts` (a dict keyed
by coin), `positions` (a dict keyed by coin). -/
structure MonitorState where
  latest_state : Option WebData2
  asset_contexts : List (String × AssetCtx)
  positions : List (String × PositionInfo)

/-- `PositionMonitor.get_funding_rate`: cached context funding for the
coin, defaulting to 0. -/
def get_funding_rate (asset_contexts : List (String × AssetCtx)) (coin : String) : ℚ :=
  match asset_contexts.lookup coin with
  | some ctx => ctx.funding
  | none => 0

/-- `PositionMonitor.get_mark_price`: cached context mark price for the
coin, defaulting to 0. -/
def get_mark_price (asset_contexts : List (String × AssetCtx)) (coin : String) : ℚ :=
  match asset_contexts.lookup coin with
  | some ctx => ctx.markPx
  | none => 0

/-- The per-position body of the `process_position_data` loop
(src/utils/monitoring.py lines 93-153): builds the stored `PositionInfo`
from one reported position, the context cache and the snapshot account
value. -/
def process_position (asset_contexts : List (String × AssetCtx)) (account_value : ℚ)
    (pos : RawPosition) : PositionInfo :=
  let current_funding_rate := get_funding_rate asset_contexts pos.coin
  let current_mark_price := get_mark_price asset_contexts pos.coin
  let adjusted_funding_rate :=
    if 0 < pos.szi then -current_funding_rate else current_funding_rate
  let funding_apy := calculate_apy adjusted_funding_rate 8760 false
  let position_usd := pos.positionValue
  let notional_usd := pos.szi * pos.entryPx
  let risk_metrics := is_near_liquidation account_value position_usd pos.maxLeverage 10
  let adjusted_since_open := -pos.cumFunding.sinceOpen
  { coin := pos.coin
    position_usd := position_usd
    notional_usd := notional_usd
    max_leverage := pos.maxLeverage
    account_value := account_value
    liquidation_price := match pos.liquidationPx with | some px => px | none => 0
    entry_price := pos.entryPx
    size := pos.szi
    leverage := pyInt pos.leverage_value
    unrealized_pnl := pos.unrealizedPnl
    funding :=
      { allTime := pos.cumFunding.allTime
        sinceOpen := adjusted_since_open
        sinceChange := pos.cumFunding.sinceChange
        currentRate := adjusted_funding_rate
        projectedApy := funding_apy }
    risk_metrics := risk_metrics
    funding_apy := funding_apy
    current_funding_rate := adjusted_funding_rate
    current_mark_price := current_mark_price }

/-- Python dict assignment `positions[coin] = info`: replace the value in
place if the key exists, else append. -/
def dict_insert (m : List (String × PositionInfo)) (k : String) (v : PositionInfo) :
    List (String × PositionInfo) :=
  if m.any (fun kv => kv.1 == k) then
    m.map (fun kv => if kv.1 == k then (k, v) else kv)
  else m ++ [(k, v)]

/-- One iteration of the `for position in ch_state.get("assetPositions", [])`
loop: skip a missing `position` dict, skip zero signed size, otherwise
store the processed position under its coin. -/
def process_step (asset_contexts : List (String × AssetCtx)) (account_value : ℚ)
    (acc : List (String × PositionInfo)) (ap : AssetPosition) :
    List (String × PositionInfo) :=
  match ap.position with
  | none => acc
  | some pos =>
    if pos.szi = 0 then acc
    else dict_insert acc pos.coin (process_position asset_contexts account_value pos)

/-- The position set rebuilt from one clearinghouse state and the context
cache (the loop of `process_position_data`, starting from the cleared
`self.positions = {}`). -/
def build_positions (asset_contexts : List (String × AssetCtx))
    (ch : ClearinghouseState) : List (String × PositionInfo) :=
  ch.assetPositions.foldl (process_step asset_contexts ch.marginSummary.accountValue) []

/-- `PositionMonitor.process_position_data`: returns early (state
untouched) when no snapshot or no clearinghouse state is present;
otherwise replaces `positions` wholesale with the rebuilt set. -/
def process_position_data (st : MonitorState) : MonitorState :=
  match st.latest_state with
  | none => st
  | some ls =>
    match ls.clearinghouseState with
    | none => st
    | some ch => { st with positions := build_positions st.asset_contexts ch }

/- ## Helper lemmas about the monitoring embedding -/

lemma process_position_size (asset_contexts : List (String × AssetCtx))
    (account_value : ℚ) (pos : RawPosition) :
    (process_position asset_contexts account_value pos).size = pos.szi := rfl

lemma process_position_coin (asset_contexts : List (String × AssetCtx))
    (account_value : ℚ) (pos : RawPosition) :
    (process_position asset_contexts account_value pos).coin = pos.coin := rfl

lemma process_position_currentRate (asset_contexts : List (String × AssetCtx))
    (account_value : ℚ) (pos : RawPosition) :
    (process_position asset_contexts account_value pos).funding.currentRate =
      if 0 < pos.szi then -(get_funding_rate asset_contexts pos.coin)
      else get_funding_rate asset_contexts pos.coin := rfl

lemma dict_insert_mem {m : List (String × PositionInfo)} {k : String}
    {v : PositionInfo} {kv : String × PositionInfo}
    (h : kv ∈ dict_insert m k v) : kv = (k, v) ∨ kv ∈ m := by
  unfold dict_insert at h
  by_cases hk : m.any (fun kv => kv.1 == k)
  · rw [if_pos hk] at h
    rcases List.mem_map.mp h with ⟨a, haM, hEq⟩
    by_cases hak : a.1 == k
    · rw [if_pos hak] at hEq
      exact Or.inl hEq.symm
    · rw [if_neg hak] at hEq
      exact Or.inr (hEq ▸ haM)
  · rw [if_neg hk] at h
    rcases List.mem_append.mp h with h' | h'
    · exact Or.inr h'
    · exact Or.inl (List.mem_singleton.mp h')

lemma build_fold_mem (asset_contexts : List (String × AssetCtx)) (account_value : ℚ) :
    ∀ (l : List AssetPosition) (acc : List (String × PositionInfo)),
      (∀ kv ∈ acc, ∃ pos : RawPosition, pos.szi ≠ 0 ∧
        kv = (pos.coin, process_position asset_contexts account_value pos)) →
      ∀ kv ∈ l.foldl (process_step asset_contexts account_value) acc,
        ∃ pos : RawPosition, pos.szi ≠ 0 ∧
          kv = (pos.coin, process_position asset_contexts account_value pos) := by
  intro l
  induction l with
  | nil => intro acc hacc kv hkv; exact hacc kv hkv
  | cons ap tl ih =>
    intro acc hacc kv hkv
    rw [List.foldl_cons] at hkv
    refine ih _ ?_ kv hkv
    intro kv' hkv'
    unfold process_step at hkv'
    cases hap : ap.position with
    | none => rw [hap] at hkv'; exact hacc kv' hkv'
    | some pos =>
      rw [hap] at hkv'
      have hkv2 : kv' ∈ (if pos.szi = 0 then acc
          else dict_insert acc pos.coin (process_position asset_contexts account_value pos)) :=
        hkv'
      by_cases hz : pos.szi = 0
      · rw [if_pos hz] at hkv2; exact hacc kv' hkv2
      · rw [if_neg hz] at hkv2
        rcases dict_insert_mem hkv2 with hEq | hMem
        · exact ⟨pos, hz, hEq⟩
        · exact hacc kv' hMem

lemma build_positions_mem (asset_contexts : List (String × AssetCtx))
    (ch : ClearinghouseState) (kv : String × PositionInfo)
    (h : kv ∈ build_positions asset_contexts ch) :
    ∃ pos : RawPosition, pos.szi ≠ 0 ∧
      kv = (pos.coin, process_position asset_contexts ch.marginSummary.accountValue pos) :=
  build_fold_mem asset_contexts ch.marginSummary.accountValue ch.assetPositions []
    (by intro kv' h'; cases h') kv h

/- ## Theorems about src/utils/monitoring.py -/

/-- C5: whenever a snapshot with a clearinghouse state is processed, the
position set afterwards is rebuilt from scratch from that snapshot, and
no stored `PositionInfo` has signed size 0. -/
theorem no_zero_size_position_stored (st : MonitorState) (ls : WebData2)
    (ch : ClearinghouseState) (h1 : st.latest_state = some ls)
    (h2 : ls.clearinghouseState = some ch) :
    (process_position_data st).positions = build_positions st.asset_contexts ch
    ∧ (process_position_data st).positions.all
        (fun kv => decide (kv.2.size ≠ 0)) = true := by
  have hset : (process_position_data st).positions = build_positions st.asset_contexts ch := by
    simp only [process_position_data, h1, h2]
  refine ⟨hset, ?_⟩
  rw [hset, List.all_eq_true]
  intro kv hkv
  rcases build_positions_mem st.asset_contexts ch kv hkv with ⟨pos, hz, rfl⟩
  rw [decide_eq_true_eq, process_position_size]
  exact hz

/-- C5 witness state: a snapshot holding a long, a short, a missing and a
zero-size position, with a two-coin context cache. -/
def posETH : RawPosition :=
  { coin := "ETH", szi := 2, positionValue := 6200, entryPx := 3000
    maxLeverage := 20, liquidationPx := some 1500, leverage_value := 2
    unrealizedPnl := 200, cumFunding := { allTime := 5, sinceOpen := 10, sinceChange := 1 } }

def posBTC : RawPosition :=
  { coin := "BTC", szi := -1, positionValue := 60000, entryPx := 59000
    maxLeverage := 40, liquidationPx := none, leverage_value := 3
    unrealizedPnl := -1000, cumFunding := { allTime := 7, sinceOpen := -4, sinceChange := 2 } }

def posZero : RawPosition :=
  { coin := "SOL", szi := 0, positionValue := 0, entryPx := 150
    maxLeverage := 10, liquidationPx := none, leverage_value := 1
    unrealizedPnl := 0, cumFunding := { allTime := 0, sinceOpen := 0, sinceChange := 0 } }

def ctxsW : List (String × AssetCtx) :=
  [("ETH", { funding := 0.0001, markPx := 3100 }),
   ("BTC", { funding := 0.0002, markPx := 60000 })]

def chW : ClearinghouseState :=
  { assetPositions :=
      [{ position := some posETH }, { position := some posBTC },
       { position := none }, { position := some posZero }]
    marginSummary := { accountValue := 10000 } }

def stW : MonitorState :=
  { latest_state := some { clearinghouseState := some chW }
    asset_contexts := ctxsW
    positions := [] }

theorem no_zero_size_position_stored_witness :
    (process_position_data stW).positions = build_positions stW.asset_contexts chW
    ∧ (process_position_data stW).positions.all
        (fun kv => decide (kv.2.size ≠ 0)) = true :=
  no_zero_size_position_stored stW { clearinghouseState := some chW } chW rfl rfl

/-- C6: every position stored by the snapshot-processing loop obeys the
funding-sign law: a long position (size > 0) stores the negated raw
cached funding rate of its coin, a short position (size < 0) stores it
unchanged. -/
theorem funding_sign_law (asset_contexts : List (String × AssetCtx))
    (ch : ClearinghouseState) (kv : String × PositionInfo)
    (h : kv ∈ build_positions asset_contexts ch) :
    (0 < kv.2.size →
      kv.2.funding.currentRate = -(get_funding_rate asset_contexts kv.2.coin))
    ∧ (kv.2.size < 0 →
      kv.2.funding.currentRate = get_funding_rate asset_contexts kv.2.coin) := by
  rcases build_positions_mem asset_contexts ch kv h with ⟨pos, hz, rfl⟩
  constructor
  · intro hs
    rw [process_position_size] at hs
    rw [process_position_currentRate, process_position_coin, if_pos hs]
  · intro hs
    rw [process_position_size] at hs
    rw [process_position_currentRate, process_position_coin, if_neg (asymm hs)]

theorem funding_sign_law_witness :
    ((0:ℚ) < ("ETH", process_position ctxsW 10000 posETH).2.size
      ∧ ("ETH", process_position ctxsW 10000 posETH).2.funding.currentRate =
        -(get_funding_rate ctxsW ("ETH", process_position ctxsW 10000 posETH).2.coin))
    ∧ (("BTC", process_position ctxsW 10000 posBTC).2.size < (0:ℚ)
      ∧ ("BTC", process_position ctxsW 10000 posBTC).2.funding.currentRate =
        get_funding_rate ctxsW ("BTC", process_position ctxsW 10000 posBTC).2.coin) := by
  have hETH : (0:ℚ) < ("ETH", process_position ctxsW 10000 posETH).2.size := by
    rw [process_position_size]; norm_num [posETH]
  have hBTC : ("BTC", process_position ctxsW 10000 posBTC).2.size < (0:ℚ) := by
    rw [process_position_size]; norm_num [posBTC]
  have hmE : ("ETH", process_position ctxsW 10000 posETH) ∈ build_positions ctxsW chW :=
    List.Mem.head _
  have hmB : ("BTC", process_position ctxsW 10000 posBTC) ∈ build_positions ctxsW chW :=
    List.Mem.tail _ (List.Mem.head _)
  exact ⟨⟨hETH, (funding_sign_law ctxsW chW _ hmE).1 hETH⟩,
    ⟨hBTC, (funding_sign_law ctxsW chW _ hmB).2 hBTC⟩⟩

/-- C8: `process_position_data` is deterministic and idempotent: it is a
function of the monitor state, and running it twice yields exactly the
state (hence position set) that running it once yields. -/
theorem process_position_data_idempotent (st : MonitorState) :
    process_position_data (process_position_data st) = process_position_data st := by
  cases h : st.latest_state with
  | none => simp [process_position_data, h]
  | some ls =>
    cases hc : ls.clearinghouseState with
    | none => simp [process_position_data, h, hc]
    | some ch => simp [process_position_data, h, hc]

/-- C10: the stored `fundingInfo.sinceOpen` is the unconditional negation
of the venue-reported cumulative since-open funding, for every processed
position regardless of the sign of its size. -/
theorem since_open_unconditional_negation (asset_contexts : List (String × AssetCtx))
    (account_value : ℚ) (pos : RawPosition) :
    (process_position asset_contexts account_value pos).funding.sinceOpen =
      -pos.cumFunding.sinceOpen := rfl

/- ## src/strategies/delta_neutral_executor.py -/

/-- The configuration fields of `DeltaNeutralExecutor` (environment
variables with defaults 2, 0.5, 1000, 0.1). -/
structure ExecConfig where
  min_profitability : ℚ
  borrow_perc_of_ltv : ℚ
  initial_usdc : ℚ
  swap_percentage : ℚ

/-- The behavior of the external collaborators during one run of
`execute_strategy`: the oracle price, success of each transaction, the
WETH reserve LTV (absent means the reserve lookup yields nothing and the
step raises), the base-asset amount the swap actually delivered (reported
by the on-chain swap result; the source never reads it), the
exchange-reported account value at each poll attempt, the size precision,
and the hedge-order outcome. -/
structure ExecEnv where
  eth_price : ℚ
  swap_ok : Bool
  swap_received_wei : ℤ
  supply_ok : Bool
  weth_ltv : Option ℚ
  borrow_ok : Bool
  deposit_ok : Bool
  margin_account_value : ℕ → ℚ
  sz_decimals_eth : ℕ
  order_ok : Bool
  order_filled : Bool

/-- The five ordered collaborator calls of the workflow. -/
inductive Step where
  | swapStep
  | supplyStep
  | borrowStep
  | depositStep
  | openHedgeStep
deriving DecidableEq

/-- The observable outcome of one `execute_strategy` run: which
collaborator calls were made, the amount passed to `supply_eth`, the
amount passed to `borrow_asset`, whether the bounded deposit polling ever
observed sufficient margin, the size passed to `market_open`, and the
boolean the source function returns. -/
structure ExecResult where
  attempted : List Step
  supplied_wei : Option ℤ
  borrow_usdc : Option ℤ
  deposit_confirmed : Bool
  hedge_size : Option ℚ
  returnValue : Bool
deriving DecidableEq

/-- Step 1 amount: `int(initial_usdc * swap_percentage * 10**6)`. -/
def usdc_to_swap_amt (cfg : ExecConfig) : ℤ :=
  pyInt (cfg.initial_usdc * cfg.swap_percentage * 10 ^ 6)

/-- Step 1 minimum-out guard:
`int(usdc_to_swap / 10**6 / eth_price * 0.995 * 10**18)`. -/
def min_eth_amount_amt (cfg : ExecConfig) (eth_price : ℚ) : ℤ :=
  pyInt ((usdc_to_swap_amt cfg : ℚ) / 10 ^ 6 / eth_price * 0.995 * 10 ^ 18)

/-- Step 3 amount: `int(eth_value_usd * eth_ltv * borrow_perc_of_ltv * 10**6)`
where `eth_value_usd = (eth_to_supply / 10**18) * eth_price` and
`eth_to_supply = min_eth_amount`. -/
def borrow_amount_amt (cfg : ExecConfig) (eth_price eth_ltv : ℚ) : ℤ :=
  pyInt (((min_eth_amount_amt cfg eth_price : ℚ) / 10 ^ 18) * eth_price
    * eth_ltv * cfg.borrow_perc_of_ltv * 10 ^ 6)

/-- The bounded deposit polling of step 4 (`max_retries = 30`): whether any
of the 30 polls reports `accountValue >= borrow_amount / 10**6`. The
source breaks out of the loop on the first success and, crucially, falls
through to step 5 in either case. -/
def deposit_poll_success (env : ExecEnv) (borrow_amount : ℤ) : Bool :=
  (List.range 30).any
    (fun i => decide ((borrow_amount : ℚ) / 10 ^ 6 ≤ env.margin_account_value i))

/-- `DeltaNeutralExecutor.should_execute`: `simulated_apy > min_profitability * 100`.
A pure comparison in the source (its only other action is a log line). -/
def should_execute (min_profitability simulated_apy : ℚ) : Bool :=
  decide (simulated_apy > min_profitability * 100)

/-- `DeltaNeutralExecutor.execute_strategy`: the five-step sequence.
Every `return False` of the source (any raised exception is caught by the
single outer `except`, which returns `False`) is a record with
`returnValue := false`; the trace fields record the collaborator calls
made and the amounts passed to them. -/
def execute_strategy (cfg : ExecConfig) (env : ExecEnv) : ExecResult :=
  let min_eth_amount := min_eth_amount_amt cfg env.eth_price
  if env.swap_ok = false then
    { attempted := [Step.swapStep], supplied_wei := none, borrow_usdc := none
      deposit_confirmed := false, hedge_size := none, returnValue := false }
  else
    let eth_to_supply := min_eth_amount
    if env.supply_ok = false then
      { attempted := [Step.swapStep, Step.supplyStep]
        supplied_wei := some eth_to_supply, borrow_usdc := none
        deposit_confirmed := false, hedge_size := none, returnValue := false }
    else
      match env.weth_ltv with
      | none =>
        { attempted := [Step.swapStep, Step.supplyStep]
          supplied_wei := some eth_to_supply, borrow_usdc := none
          deposit_confirmed := false, hedge_size := none, returnValue := false }
      | some eth_ltv =>
        let borrow_amount := borrow_amount_amt cfg env.eth_price eth_ltv
        if env.borrow_ok = false then
          { attempted := [Step.swapStep, Step.supplyStep, Step.borrowStep]
            supplied_wei := some eth_to_supply, borrow_usdc := some borrow_amount
            deposit_confirmed := false, hedge_size := none, returnValue := false }
        else if env.deposit_ok = false then
          { attempted := [Step.swapStep, Step.supplyStep, Step.borrowStep, Step.depositStep]
            supplied_wei := some eth_to_supply, borrow_usdc := some borrow_amount
            deposit_confirmed := false, hedge_size := none, returnValue := false }
        else
          let deposit_confirmed := deposit_poll_success env borrow_amount
          let eth_to_short :=
            py_round ((eth_to_supply : ℚ) / 10 ^ 18) env.sz_decimals_eth
          { attempted := [Step.swapStep, Step.supplyStep, Step.borrowStep,
              Step.depositStep, Step.openHedgeStep]
            supplied_wei := some eth_to_supply, borrow_usdc := some borrow_amount
            deposit_confirmed := deposit_confirmed, hedge_size := some eth_to_short
            returnValue := env.order_ok && env.order_filled }

/- ## Helper lemmas and concrete runs of the executor -/

lemma pyInt_intCast (n : ℤ) : pyInt (n : ℚ) = n := by
  simp [pyInt, Rat.num_intCast, Rat.den_intCast]

/-- A configuration with the source defaults: MIN_GLOBAL_PROFITABILITY 2,
BORROW_PERC_OF_LTV 0.5, INITIAL_USDC 1000, SWAP_PERCENTAGE 0.1. -/
def cfgW : ExecConfig :=
  { min_profitability := 2, borrow_perc_of_ltv := 0.5
    initial_usdc := 1000, swap_percentage := 0.1 }

/-- A run in which every transaction succeeds, the oracle reports 2000,
the WETH reserve LTV is 0.8, the swap actually delivers 0.05 ETH
(5*10^16 wei), the exchange reports 100 USDC of margin at every poll and
the hedge order fills. -/
def envHedged : ExecEnv :=
  { eth_price := 2000, swap_ok := true, swap_received_wei := 50000000000000000
    supply_ok := true, weth_ltv := some 0.8, borrow_ok := true
    deposit_ok := true, margin_account_value := fun _ => 100
    sz_decimals_eth := 4, order_ok := true, order_filled := true }

/-- Same run, but the exchange reports 0 available margin at every one of
the 30 polls: the retry budget is exhausted without sufficient margin. -/
def envNoMargin : ExecEnv := { envHedged with margin_account_value := fun _ => 0 }

/-- Same run, but the step-1 swap transaction fails: nothing executes. -/
def envEarlyFail : ExecEnv := { envHedged with swap_ok := false }

/-- Same run, but the step-5 hedge order is rejected after the swap,
supply, borrow and deposit transactions all succeeded on-chain. -/
def envLateFail : ExecEnv := { envHedged with order_ok := false }

lemma usdc_to_swap_amt_cfgW : usdc_to_swap_amt cfgW = 100000000 := by
  have h : cfgW.initial_usdc * cfgW.swap_percentage * 10 ^ 6 = ((100000000 : ℤ) : ℚ) := by
    norm_num [cfgW]
  rw [usdc_to_swap_amt, h, pyInt_intCast]

lemma min_eth_amount_amt_cfgW : min_eth_amount_amt cfgW 2000 = 49750000000000000 := by
  rw [min_eth_amount_amt, usdc_to_swap_amt_cfgW]
  have h : ((100000000 : ℤ) : ℚ) / 10 ^ 6 / 2000 * 0.995 * 10 ^ 18
      = ((49750000000000000 : ℤ) : ℚ) := by norm_num
  rw [h, pyInt_intCast]

lemma borrow_amount_amt_cfgW : borrow_amount_amt cfgW 2000 0.8 = 39800000 := by
  rw [borrow_amount_amt, min_eth_amount_amt_cfgW]
  have h : ((49750000000000000 : ℤ) : ℚ) / 10 ^ 18 * 2000 * 0.8
      * cfgW.borrow_perc_of_ltv * 10 ^ 6 = ((39800000 : ℤ) : ℚ) := by norm_num [cfgW]
  rw [h, pyInt_intCast]

/-- In the all-margins-zero run, none of the 30 polls observes available
margin at least the transferred 39.8 USDC. -/
lemma deposit_never_confirmed :
    (execute_strategy cfgW envNoMargin).deposit_confirmed = false := by
  have h : (execute_strategy cfgW envNoMargin).deposit_confirmed
      = deposit_poll_success envNoMargin (borrow_amount_amt cfgW 2000 0.8) := rfl
  rw [h, deposit_poll_success, borrow_amount_amt_cfgW]
  rw [List.any_eq_false]
  intro i _
  have hzero : envNoMargin.margin_account_value i = 0 := rfl
  simp only [hzero, decide_eq_true_eq]
  norm_num

/- ## Theorems about src/strategies/delta_neutral_executor.py -/

/-- C9: `should_execute` is the pure comparison
`simulated_apy > min_profitability * 100` (the model is a pure function;
the source's only other action is a log line); in particular with
`min_profitability = 2`, `should_execute` rejects 150 and accepts 250. -/
theorem should_execute_spec :
    (∀ m s : ℚ, should_execute m s = true ↔ s > m * 100)
    ∧ should_execute 2 150 = false ∧ should_execute 2 250 = true := by
  refine ⟨fun m s => by simp [should_execute], ?_, ?_⟩
  · exact decide_eq_false (by norm_num)
  · exact decide_eq_true (by norm_num)

/-- C2 (counterexample): in a concrete run whose 30 bounded polls never
observe sufficient margin (the transfer amount is 39.8 USDC, the exchange
reports 0 every time), the workflow does not fail at step 4: the step-5
hedge order is attempted and the run even returns success. -/
theorem bridge_poll_exhaustion_no_step4_failure :
    (execute_strategy cfgW envNoMargin).deposit_confirmed = false
    ∧ Step.openHedgeStep ∈ (execute_strategy cfgW envNoMargin).attempted
    ∧ (execute_strategy cfgW envNoMargin).returnValue = true :=
  ⟨deposit_never_confirmed, by decide, rfl⟩

/-- C2 (amended): when steps 1-4's transactions succeed and the bounded
deposit polling exhausts its 30 retries without ever observing available
margin at least the transferred amount, the workflow does not return a
step-4 failure: it proceeds to attempt step 5, and its boolean outcome is
decided solely by the hedge order. -/
theorem bridge_poll_exhaustion_proceeds (cfg : ExecConfig) (env : ExecEnv) (ltv : ℚ)
    (h1 : env.swap_ok = true) (h2 : env.supply_ok = true)
    (h3 : env.weth_ltv = some ltv) (h4 : env.borrow_ok = true)
    (h5 : env.deposit_ok = true)
    (h6 : (execute_strategy cfg env).deposit_confirmed = false) :
    Step.openHedgeStep ∈ (execute_strategy cfg env).attempted
    ∧ (execute_strategy cfg env).returnValue = (env.order_ok && env.order_filled)
    ∧ (execute_strategy cfg env).deposit_confirmed = false := by
  refine ⟨?_, ?_, h6⟩
  · unfold execute_strategy
    simp [h1, h2, h3, h4, h5]
  · unfold execute_strategy
    simp [h1, h2, h3, h4, h5]

theorem bridge_poll_exhaustion_proceeds_witness :
    Step.openHedgeStep ∈ (execute_strategy cfgW envNoMargin).attempted
    ∧ (execute_strategy cfgW envNoMargin).returnValue
      = (envNoMargin.order_ok && envNoMargin.order_filled)
    ∧ (execute_strategy cfgW envNoMargin).deposit_confirmed = false :=
  bridge_poll_exhaustion_proceeds cfgW envNoMargin 0.8 rfl rfl rfl rfl rfl
    deposit_never_confirmed

/-- C3 (code bug): in a run that reaches step 2, the amount supplied as
collateral is `min_eth_amount` (the 0.995 minimum-out guard computed from
the oracle price before the swap), not the base-asset amount the swap
actually delivered. Here the swap delivers 5*10^16 wei, but the source
supplies 4.975*10^16 wei, contradicting its own comment
("Use the exact amount we got from swap"). -/
theorem supply_uses_min_out_guard_not_swap_output :
    envHedged.swap_received_wei = 50000000000000000
    ∧ (execute_strategy cfgW envHedged).supplied_wei = some (min_eth_amount_amt cfgW 2000)
    ∧ min_eth_amount_amt cfgW 2000 = 49750000000000000
    ∧ (execute_strategy cfgW envHedged).supplied_wei ≠ some envHedged.swap_received_wei := by
  refine ⟨rfl, rfl, min_eth_amount_amt_cfgW, ?_⟩
  have h : (execute_strategy cfgW envHedged).supplied_wei
      = some (min_eth_amount_amt cfgW 2000) := rfl
  rw [h, min_eth_amount_amt_cfgW]
  decide

/-- C4 (counterexample): the source reports every failure as the same bare
boolean `False`. A run whose step-5 hedge order fails after four
successful on-chain steps and a run whose step-1 swap fails before
anything executed return identical, indistinguishable values. -/
theorem failure_reporting_undifferentiated :
    (execute_strategy cfgW envLateFail).attempted
      = [Step.swapStep, Step.supplyStep, Step.borrowStep, Step.depositStep,
          Step.openHedgeStep]
    ∧ (execute_strategy cfgW envEarlyFail).attempted = [Step.swapStep]
    ∧ (execute_strategy cfgW envLateFail).returnValue = false
    ∧ (execute_strategy cfgW envEarlyFail).returnValue = false
    ∧ (execute_strategy cfgW envLateFail).returnValue
      = (execute_strategy cfgW envEarlyFail).returnValue :=
  ⟨rfl, rfl, rfl, rfl, rfl⟩

/-- C4 (amended): a failure after the swap, supply, borrow and deposit
transactions all succeeded on-chain is reported as the plain boolean
`false` - exactly the value reported when the very first step fails and
nothing has executed; no `PartialExecutionError`/`PreconditionError`
distinction exists in the source. -/
theorem all_failures_report_plain_false (cfg : ExecConfig) (env env' : ExecEnv) (ltv : ℚ)
    (h1 : env.swap_ok = true) (h2 : env.supply_ok = true)
    (h3 : env.weth_ltv = some ltv) (h4 : env.borrow_ok = true)
    (h5 : env.deposit_ok = true) (h6 : env.order_ok = false)
    (h7 : env'.swap_ok = false) :
    (execute_strategy cfg env).returnValue = false
    ∧ (execute_strategy cfg env').returnValue = false
    ∧ (execute_strategy cfg env).returnValue = (execute_strategy cfg env').returnValue := by
  have ha : (execute_strategy cfg env).returnValue = false := by
    unfold execute_strategy
    simp [h1, h2, h3, h4, h5, h6]
  have hb : (execute_strategy cfg env').returnValue = false := by
    unfold execute_strategy
    simp [h7]
  exact ⟨ha, hb, ha.trans hb.symm⟩

theorem all_failures_report_plain_false_witness :
    (execute_strategy cfgW envLateFail).returnValue = false
    ∧ (execute_strategy cfgW envEarlyFail).returnValue = false
    ∧ (execute_strategy cfgW envLateFail).returnValue
      = (execute_strategy cfgW envEarlyFail).returnValue :=
  all_failures_report_plain_false cfgW envLateFail envEarlyFail 0.8
    rfl rfl rfl rfl rfl rfl rfl
